import Mathlib

/-!
Verification of the postal-code/temperature lookup system: a gateway service
(service_a) that validates a postal code and forwards the request to a lookup
service (service_b), which resolves the code to a locality and the locality to
a temperature, returning an aggregated weather record.

The Go sources are embedded shallowly: pure functions become Lean functions,
HTTP calls become oracles passed as explicit arguments, Go `float64`
temperature arithmetic is modelled over `ℚ` with exact literals, and Go
`encoding/json` decoding is modelled over an inductive JSON value type with
Go's semantics (missing object fields keep the zero value, type mismatches
fail, unknown fields are ignored).
-/

/-! ## Shared postal-code validator

`common.IsValidCEP` compiles the regexp pattern anchored-8-digits and reports
whether the whole string matches it.  The regexp class of a decimal digit
matches exactly the ASCII characters of code points 48 through 57. -/

/-- A character of the Go regexp decimal-digit class: ASCII code 48 to 57. -/
def isDigitChar (c : Char) : Bool := decide (48 ≤ c.toNat) && decide (c.toNat ≤ 57)

/-- Anchored matcher for the regexp pattern of `n` repetitions of a decimal
digit: the character list must consist of exactly `n` digit characters. -/
def matchDigits : Nat → List Char → Bool
  | 0, [] => true
  | 0, _ :: _ => false
  | _ + 1, [] => false
  | n + 1, c :: cs => isDigitChar c && matchDigits n cs

/-- `common.IsValidCEP`: whole-string match of the anchored 8-digit pattern. -/
def IsValidCEP (cep : String) : Bool := matchDigits 8 cep.data

/-- `isValidCEP` of the untraced lookup service: an identical copy of
`common.IsValidCEP` (same anchored 8-digit regexp). -/
def isValidCEP (cep : String) : Bool := matchDigits 8 cep.data

/-! ## JSON values and Go-style decoding

Go `encoding/json` semantics as used by the services: `Unmarshal` into a
struct succeeds on a JSON object (or `null`, which leaves the struct at its
zero value), leaves absent or `null` fields at their zero value, fails on a
type mismatch, and ignores unknown fields.  A request or response body is
modelled as `Option Json`: `none` stands for bytes that are not well-formed
JSON, on which every decode fails. -/

/-- A JSON value. -/
inductive Json where
  | null
  | bool (b : Bool)
  | num (q : ℚ)
  | str (s : String)
  | arr (elems : List Json)
  | obj (fields : List (String × Json))

/-- First field of the given name in a JSON object, if any. -/
def lookupField (key : String) : List (String × Json) → Option Json
  | [] => none
  | (k, v) :: rest => if k = key then some v else lookupField key rest

/-- Gateway input `Entrada` with its single field `cep`. -/
structure Entrada where
  cep : String
deriving DecidableEq

/-- Go decode of the gateway body into `Entrada`: an object whose `cep` field,
if present, must be a string; a missing or null field yields the empty
string (the zero value of a Go string). -/
def unmarshalEntrada : Json → Option Entrada
  | .null => some ⟨""⟩
  | .obj fields =>
    match lookupField "cep" fields with
    | none => some ⟨""⟩
    | some .null => some ⟨""⟩
    | some (.str s) => some ⟨s⟩
    | some _ => none
  | _ => none

/-- `common.WeatherResponse`: the aggregated weather record with its four
JSON fields `city`, `temp_C`, `temp_F`, `temp_K`. -/
structure WeatherResponse where
  city : String
  tempC : ℚ
  tempF : ℚ
  tempK : ℚ
deriving DecidableEq

/-! ## Gateway orchestrator (service_a)

`handleRequest` decodes the body (`400` on failure), validates the code
(`422` on failure), then calls `getTemperatura`; any error there yields
`500`, success relays the decoded record with `200`.

`getTemperatura` performs the one outbound call, modelled by a
`DownstreamOutcome`: either the transport fails (request-build, `Do`, or
body-read error) or a response arrives carrying a status code and the result
of unmarshalling its body into a `WeatherResponse`.  The Go code never reads
`res.StatusCode`: it returns an error only on transport failure or on
unmarshal failure. -/

/-- Outcome of the gateway's outbound HTTP call to the lookup service. -/
inductive DownstreamOutcome where
  | transportError
  | response (status : Nat) (decoded : Option WeatherResponse)
deriving DecidableEq

/-- `getTemperatura` of service_a: error on transport failure or on a body
that fails to unmarshal; otherwise the decoded record, with the response
status code never inspected. -/
def getTemperatura : DownstreamOutcome → Except Unit WeatherResponse
  | .transportError => .error ()
  | .response _ none => .error ()
  | .response _ (some w) => .ok w

/-- What one gateway request produced: the HTTP status written, the JSON body
written (if any), and whether the outbound call to the lookup service was
made. -/
structure GatewayResult where
  status : Nat
  body : Option WeatherResponse
  calledDownstream : Bool
deriving DecidableEq

/-- `handleRequest` of service_a.  `rawBody` is the request body (`none` for
bytes that are not well-formed JSON); `downstream` is the outcome the
network would deliver if the outbound call is made. -/
def handleRequest (rawBody : Option Json) (downstream : DownstreamOutcome) :
    GatewayResult :=
  match rawBody.bind unmarshalEntrada with
  | none => ⟨400, none, false⟩
  | some entrada =>
    if IsValidCEP entrada.cep then
      match getTemperatura downstream with
      | .error _ => ⟨500, none, true⟩
      | .ok response => ⟨200, some response, true⟩
    else ⟨422, none, false⟩

/-! ## Provider adapters of the lookup service

`ApiClient` wraps an `httpGet` function (injected at construction) and the
weather-provider key.  Each adapter performs one GET, reads the body, and
unmarshals it; neither ever inspects the response status code.  Transport
failure, unmarshal failure, and the provider's not-found report are the
error conditions. -/

/-- Error classes the adapters can produce. -/
inductive ApiError where
  | upstreamUnavailable
  | decodeError
  | notFound
deriving DecidableEq

/-- An HTTP response as the adapters consume it: the status code (which they
never read) and the body, `none` when the bytes are not well-formed JSON. -/
structure HttpResponse where
  status : Nat
  body : Option Json

/-- `ViaCEPResponse` with fields `localidade` and `erro`. -/
structure ViaCEPResponse where
  localidade : String
  erro : Bool
deriving DecidableEq

/-- Go decode of the address provider's body: `localidade` must be a string
if present, `erro` a boolean if present; absent or null fields keep their
zero values `""` and `false`. -/
def unmarshalViaCEP : Json → Option ViaCEPResponse
  | .null => some ⟨"", false⟩
  | .obj fields =>
    (match lookupField "localidade" fields with
     | none => some ""
     | some .null => some ""
     | some (.str s) => some s
     | some _ => none).bind fun loc =>
    (match lookupField "erro" fields with
     | none => some false
     | some .null => some false
     | some (.bool b) => some b
     | some _ => none).bind fun e =>
    some ⟨loc, e⟩
  | _ => none

/-- `WeatherAPIResponse`: nested object carrying `current.temp_c`. -/
structure WeatherAPIResponse where
  currentTempC : ℚ
deriving DecidableEq

/-- Go decode of the weather provider's body: `current` must be an object if
present, its `temp_c` a number if present; absent or null parts keep the
zero value `0`. -/
def unmarshalWeatherAPI : Json → Option WeatherAPIResponse
  | .null => some ⟨0⟩
  | .obj fields =>
    match lookupField "current" fields with
    | none => some ⟨0⟩
    | some .null => some ⟨0⟩
    | some (.obj current) =>
      (match lookupField "temp_c" current with
       | none => some 0
       | some .null => some 0
       | some (.num q) => some q
       | some _ => none).map fun t => ⟨t⟩
    | some _ => none
  | _ => none

/-- UTF-8 encoding of one character as its list of byte values. -/
def utf8EncodeChar (c : Char) : List Nat :=
  let n := c.toNat
  if n < 128 then [n]
  else if n < 2048 then [192 + n / 64, 128 + n % 64]
  else if n < 65536 then
    [224 + n / 4096, 128 + (n / 64) % 64, 128 + n % 64]
  else
    [240 + n / 262144, 128 + (n / 4096) % 64, 128 + (n / 64) % 64, 128 + n % 64]

/-- Uppercase hexadecimal digit for a value below 16. -/
def hexDigit (n : Nat) : Char := if n < 10 then Char.ofNat (48 + n) else Char.ofNat (55 + n)

/-- Whether a byte is left unescaped by Go's query escaping: ASCII letters,
digits, and the marks minus, underscore, dot, tilde. -/
def isUnreservedByte (b : Nat) : Bool :=
  (65 ≤ b && b ≤ 90) || (97 ≤ b && b ≤ 122) || (48 ≤ b && b ≤ 57) ||
  b = 45 || b = 95 || b = 46 || b = 126

/-- Escaping of one byte: unreserved bytes stand for themselves, a space
becomes a plus, every other byte a percent sign and two hex digits. -/
def escapeByte (b : Nat) : List Char :=
  if isUnreservedByte b then [Char.ofNat b]
  else if b = 32 then ['+']
  else ['%', hexDigit (b / 16), hexDigit (b % 16)]

/-- `url.QueryEscape`: escape every UTF-8 byte of the string. -/
def queryEscape (s : String) : String :=
  String.mk ((s.data.flatMap utf8EncodeChar).flatMap escapeByte)

/-- URL of the address provider for a given code. -/
def viaCEPURL (cep : String) : String :=
  "https://viacep.com.br/ws/" ++ cep ++ "/json/"

/-- URL of the weather provider for a given key and locality. -/
def weatherURL (key city : String) : String :=
  "https://api.weatherapi.com/v1/current.json?key=" ++ key ++ "&q=" ++ queryEscape city

/-- `getCityByCEP` of `ApiClient`: GET the address provider, unmarshal a
`ViaCEPResponse`, and fail with not-found when the provider set `erro` or
returned an empty locality. -/
def getCityByCEP (httpGet : String → Except Unit HttpResponse) (cep : String) :
    Except ApiError String :=
  match httpGet (viaCEPURL cep) with
  | .error _ => .error .upstreamUnavailable
  | .ok resp =>
    match resp.body with
    | none => .error .decodeError
    | some j =>
      match unmarshalViaCEP j with
      | none => .error .decodeError
      | some viaCEP =>
        if viaCEP.erro || viaCEP.localidade = "" then .error .notFound
        else .ok viaCEP.localidade

/-- `getTemperatureByCity` of `ApiClient`: GET the weather provider and
return the decoded `current.temp_c` value. -/
def getTemperatureByCity (httpGet : String → Except Unit HttpResponse)
    (key city : String) : Except ApiError ℚ :=
  match httpGet (weatherURL key city) with
  | .error _ => .error .upstreamUnavailable
  | .ok resp =>
    match resp.body with
    | none => .error .decodeError
    | some j =>
      match unmarshalWeatherAPI j with
      | none => .error .decodeError
      | some weather => .ok weather.currentTempC

/-- The `IApiClient` interface of the lookup services: a locality resolver
and a temperature resolver. -/
structure IApiClient where
  getCityByCEP : String → Except ApiError String
  getTemperatureByCity : String → Except ApiError ℚ

/-- `NewClient`: the concrete `ApiClient` built over an `httpGet` function
and the weather-provider key. -/
def mkApiClient (httpGet : String → Except Unit HttpResponse) (key : String) :
    IApiClient :=
  ⟨getCityByCEP httpGet, getTemperatureByCity httpGet key⟩

/-! ## Lookup orchestrator (service_b)

Both lookup services — the traced one and the untraced copy — run the same
request cycle: validate the code (`422`), resolve the locality (`404` on any
error, without calling the temperature resolver), resolve the temperature
(`404` on any error), then build the record with `tempF = tempC*1.8+32` and
`tempK = tempC+273` and answer `200`. -/

/-- What one lookup request produced: the status written, the body written
(if any), and which of the two resolvers were called. -/
structure LookupResult where
  status : Nat
  body : Option WeatherResponse
  calledCity : Bool
  calledTemperature : Bool
deriving DecidableEq

/-- `weatherHandler` of the traced lookup service (service_b). -/
def weatherHandler (client : IApiClient) (cep : String) : LookupResult :=
  if IsValidCEP cep then
    match client.getCityByCEP cep with
    | .error _ => ⟨404, none, true, false⟩
    | .ok city =>
      match client.getTemperatureByCity city with
      | .error _ => ⟨404, none, true, true⟩
      | .ok tempC =>
        ⟨200, some ⟨city, tempC, tempC * 1.8 + 32, tempC + 273⟩, true, true⟩
  else ⟨422, none, false, false⟩

/-! ## Trace context propagation

The propagator installed by the shared `common.InitProvider` is not among the
available source files; following the spec it is modelled as an opaque
carrier of trace and span identifiers transported via textual request
headers, injected into every outbound call and extracted from every inbound
request. -/

/-- Modelled from the spec: the `TraceContext` data model — "opaque carrier
of trace/span identifiers, transported via request headers" (the installing
code, `common.InitProvider`, is not among the source files). -/
structure TraceContext where
  traceID : Nat
  spanID : Nat
deriving DecidableEq

/-- A textual header carrier: a list of header name/value pairs where the
most recently set value of a name is found first. -/
abbrev HeaderCarrier := List (String × String)

/-- Value of the first header of the given name. -/
def getHeader : HeaderCarrier → String → Option String
  | [], _ => none
  | (k, v) :: rest, key => if k = key then some v else getHeader rest key

/-- Decimal digit characters of a natural number, most significant first. -/
def natToDigits (n : Nat) : List Char :=
  if h : n < 10 then [Char.ofNat (48 + n)]
  else natToDigits (n / 10) ++ [Char.ofNat (48 + n % 10)]
termination_by n
decreasing_by exact Nat.div_lt_self (by omega) (by omega)

/-- Accumulator pass of decimal parsing. -/
def digitsToNatAux : Nat → List Char → Nat
  | acc, [] => acc
  | acc, c :: cs => digitsToNatAux (acc * 10 + (c.toNat - 48)) cs

/-- Parse a nonempty all-digit character list as a decimal number. -/
def parseNat (cs : List Char) : Option Nat :=
  if cs.isEmpty then none
  else if cs.all isDigitChar then some (digitsToNatAux 0 cs) else none

/-- Modelled from the spec: `Inject` of the textual trace-context propagator
writes the context's identifiers into the carrier as textual headers. -/
def injectTraceContext (ctx : TraceContext) (c : HeaderCarrier) : HeaderCarrier :=
  ("span-id", String.mk (natToDigits ctx.spanID)) ::
  ("trace-id", String.mk (natToDigits ctx.traceID)) :: c

/-- Modelled from the spec: `Extract` of the textual trace-context propagator
reads the identifier headers back off the carrier. -/
def extractTraceContext (c : HeaderCarrier) : Option TraceContext :=
  match getHeader c "trace-id", getHeader c "span-id" with
  | some t, some s =>
    match parseNat t.data, parseNat s.data with
    | some tid, some sid => some ⟨tid, sid⟩
    | _, _ => none
  | _, _ => none

/-- The headers of the gateway's outbound request to the lookup service: a
fresh request's headers with the current trace context injected
(src/service_a/main.go line 141). -/
def outboundRequestHeaders (ctx : TraceContext) : HeaderCarrier :=
  injectTraceContext ctx []

/-- The trace context under which the traced lookup service starts its
"Validate inputs" span: extracted from the inbound request's headers
(lines 126 to 128 of the traced lookup service). -/
def inboundContext (reqHeaders : HeaderCarrier) : Option TraceContext :=
  extractTraceContext reqHeaders

/-- `weatherHandler` of the untraced lookup service: identical request cycle,
guarded by its own `isValidCEP` copy. -/
def weatherHandlerUntraced (client : IApiClient) (cep : String) : LookupResult :=
  if isValidCEP cep then
    match client.getCityByCEP cep with
    | .error _ => ⟨404, none, true, false⟩
    | .ok city =>
      match client.getTemperatureByCity city with
      | .error _ => ⟨404, none, true, true⟩
      | .ok tempC =>
        ⟨200, some ⟨city, tempC, tempC * 1.8 + 32, tempC + 273⟩, true, true⟩
  else ⟨422, none, false, false⟩

/-! ## Helper lemmas -/

/-- The anchored digit matcher succeeds exactly on lists of the right length
whose characters are all decimal digits. -/
theorem matchDigits_iff (n : Nat) (cs : List Char) :
    matchDigits n cs = true ↔ cs.length = n ∧ ∀ c ∈ cs, isDigitChar c = true := by
  induction cs generalizing n with
  | nil => cases n <;> simp [matchDigits]
  | cons c cs ih =>
    cases n with
    | zero => simp [matchDigits]
    | succ n =>
      simp only [matchDigits, Bool.and_eq_true, ih, List.length_cons,
        List.forall_mem_cons, Nat.succ.injEq]
      tauto

/-- The untraced service's validator is literally the same matcher as the
shared one. -/
theorem isValidCEP_eq_IsValidCEP (s : String) : isValidCEP s = IsValidCEP s := rfl

/-! ## Claims -/

/-- C1: the shared validator `IsValidCEP` (and its copy `isValidCEP` in the
untraced lookup service) returns true exactly on the strings of exactly 8
decimal digits; every other string — wrong length, non-digit character,
empty — is rejected. -/
theorem C1_isValidCEP_iff_eight_digits (s : String) :
    (IsValidCEP s = true ↔
      s.data.length = 8 ∧ ∀ c ∈ s.data, 48 ≤ c.toNat ∧ c.toNat ≤ 57) ∧
    isValidCEP s = IsValidCEP s := by
  refine ⟨?_, rfl⟩
  rw [IsValidCEP, matchDigits_iff]
  simp [isDigitChar]

/-- C5: when the gateway body decodes to a code that fails validation, the
gateway answers 422 Unprocessable Entity and the outbound call to the lookup
service is never made. -/
theorem C5_invalid_cep_422_no_outbound_call (rawBody : Option Json) (e : Entrada)
    (d : DownstreamOutcome)
    (hdec : rawBody.bind unmarshalEntrada = some e)
    (hinvalid : IsValidCEP e.cep = false) :
    handleRequest rawBody d = ⟨422, none, false⟩ := by
  simp [handleRequest, hdec, hinvalid]

/-- C5 witness: the spec's Scenario B input "123". -/
theorem C5_invalid_cep_422_no_outbound_call_witness :
    handleRequest (some (Json.obj [("cep", Json.str "123")]))
      DownstreamOutcome.transportError = ⟨422, none, false⟩ :=
  C5_invalid_cep_422_no_outbound_call _ ⟨"123"⟩ _ (by decide) (by decide)

/-- C10: a body that is valid JSON without a `cep` field decodes to the empty
string, fails validation, and yields 422 — while 400 is what bodies that
fail JSON decoding yield. -/
theorem C10_missing_cep_field_422 (d : DownstreamOutcome) :
    handleRequest (some (Json.obj [])) d = ⟨422, none, false⟩ ∧
    handleRequest none d = ⟨400, none, false⟩ := by
  constructor
  · have h1 : (some (Json.obj [])).bind unmarshalEntrada = some ⟨""⟩ := by decide
    have h2 : IsValidCEP "" = false := by decide
    simp [handleRequest, h1, h2]
  · rfl

/-- C2 counterexample: the gateway never inspects the downstream status code,
so a downstream response with status 404 whose body nevertheless decodes as
a `WeatherResponse` is answered with 200, not 500. -/
theorem C2_counterexample_non2xx_can_yield_200 :
    (handleRequest (some (Json.obj [("cep", Json.str "12345678")]))
      (DownstreamOutcome.response 404 (some ⟨"X", 1, 2, 3⟩))).status = 200 := by
  decide

/-- C2 (amended): on timeout or transport failure, or on a downstream body
that fails to decode as a `WeatherResponse`, the gateway answers 500; the
downstream status code itself is never inspected. -/
theorem C2_transport_or_decode_failure_500 (rawBody : Option Json) (e : Entrada)
    (d : DownstreamOutcome)
    (hdec : rawBody.bind unmarshalEntrada = some e)
    (hvalid : IsValidCEP e.cep = true)
    (hfail : d = DownstreamOutcome.transportError ∨
      ∃ st, d = DownstreamOutcome.response st none) :
    handleRequest rawBody d = ⟨500, none, true⟩ := by
  rcases hfail with rfl | ⟨st, rfl⟩ <;> simp [handleRequest, hdec, hvalid, getTemperatura]

/-- C2 witness: a transport failure on the spec's Scenario D path. -/
theorem C2_transport_or_decode_failure_500_witness :
    handleRequest (some (Json.obj [("cep", Json.str "12345678")]))
      DownstreamOutcome.transportError = ⟨500, none, true⟩ :=
  C2_transport_or_decode_failure_500 _ ⟨"12345678"⟩ _ (by decide) (by decide)
    (Or.inl rfl)

/-- C6: when the downstream call delivers a body that decodes to a record,
the gateway answers 200 and relays that record verbatim — the body written is
exactly the decoded record, no field recomputed. -/
theorem C6_success_relays_record_verbatim (rawBody : Option Json) (e : Entrada)
    (st : Nat) (w : WeatherResponse)
    (hdec : rawBody.bind unmarshalEntrada = some e)
    (hvalid : IsValidCEP e.cep = true) :
    handleRequest rawBody (DownstreamOutcome.response st (some w))
      = ⟨200, some w, true⟩ := by
  simp [handleRequest, hdec, hvalid, getTemperatura]

/-- C6 witness: the spec's Scenario A record is relayed unaltered. -/
theorem C6_success_relays_record_verbatim_witness :
    handleRequest (some (Json.obj [("cep", Json.str "01001000")]))
      (DownstreamOutcome.response 200 (some ⟨"Sao Paulo", 25, 77, 298⟩))
      = ⟨200, some ⟨"Sao Paulo", 25, 77, 298⟩, true⟩ :=
  C6_success_relays_record_verbatim _ ⟨"01001000"⟩ 200 _ (by decide) (by decide)

/-- C3: on every successful resolution with Celsius value `t`, both lookup
services build the record with `tempF = t*1.8+32` and `tempK = t+273`
exactly, derived from the one `tempC` at aggregation time. -/
theorem C3_temperature_fields_consistent (client : IApiClient) (cep city : String)
    (t : ℚ)
    (hvalid : IsValidCEP cep = true)
    (hcity : client.getCityByCEP cep = Except.ok city)
    (htemp : client.getTemperatureByCity city = Except.ok t) :
    (∃ w, (weatherHandler client cep).body = some w ∧ w.city = city ∧
      w.tempC = t ∧ w.tempF = t * 1.8 + 32 ∧ w.tempK = t + 273) ∧
    (∃ w, (weatherHandlerUntraced client cep).body = some w ∧ w.city = city ∧
      w.tempC = t ∧ w.tempF = t * 1.8 + 32 ∧ w.tempK = t + 273) := by
  constructor <;>
    exact ⟨⟨city, t, t * 1.8 + 32, t + 273⟩,
      by simp [weatherHandler, weatherHandlerUntraced, isValidCEP_eq_IsValidCEP,
           hvalid, hcity, htemp],
      rfl, rfl, rfl, rfl⟩

/-- C3 witness: a fixed client resolving to locality "SP" at 25 degrees. -/
theorem C3_temperature_fields_consistent_witness :
    (∃ w, (weatherHandler ⟨fun _ => Except.ok "SP", fun _ => Except.ok 25⟩
        "01001000").body = some w ∧ w.city = "SP" ∧
      w.tempC = 25 ∧ w.tempF = 25 * 1.8 + 32 ∧ w.tempK = 25 + 273) ∧
    (∃ w, (weatherHandlerUntraced ⟨fun _ => Except.ok "SP", fun _ => Except.ok 25⟩
        "01001000").body = some w ∧ w.city = "SP" ∧
      w.tempC = 25 ∧ w.tempF = 25 * 1.8 + 32 ∧ w.tempK = 25 + 273) :=
  C3_temperature_fields_consistent ⟨fun _ => Except.ok "SP", fun _ => Except.ok 25⟩
    "01001000" "SP" 25 (by decide) rfl rfl

/-- C4: for a valid code, an error from the locality resolver makes both
lookup services answer 404 without calling the temperature resolver; and an
error from the temperature resolver after a resolved locality also yields
404. -/
theorem C4_resolver_error_yields_404 (client : IApiClient) (cep : String)
    (hvalid : IsValidCEP cep = true) :
    (∀ err, client.getCityByCEP cep = Except.error err →
      weatherHandler client cep = ⟨404, none, true, false⟩ ∧
      weatherHandlerUntraced client cep = ⟨404, none, true, false⟩) ∧
    (∀ city err, client.getCityByCEP cep = Except.ok city →
      client.getTemperatureByCity city = Except.error err →
      weatherHandler client cep = ⟨404, none, true, true⟩ ∧
      weatherHandlerUntraced client cep = ⟨404, none, true, true⟩) := by
  constructor
  · intro err herr
    constructor <;>
      simp [weatherHandler, weatherHandlerUntraced, isValidCEP_eq_IsValidCEP,
        hvalid, herr]
  · intro city err hcity htemp
    constructor <;>
      simp [weatherHandler, weatherHandlerUntraced, isValidCEP_eq_IsValidCEP,
        hvalid, hcity, htemp]

/-- C4 witness: a locality resolver that reports not-found. -/
theorem C4_resolver_error_yields_404_witness :
    weatherHandler ⟨fun _ => Except.error ApiError.notFound, fun _ => Except.ok 0⟩
      "01001000" = ⟨404, none, true, false⟩ ∧
    weatherHandlerUntraced ⟨fun _ => Except.error ApiError.notFound, fun _ => Except.ok 0⟩
      "01001000" = ⟨404, none, true, false⟩ :=
  (C4_resolver_error_yields_404
    ⟨fun _ => Except.error ApiError.notFound, fun _ => Except.ok 0⟩
    "01001000" (by decide)).1 ApiError.notFound rfl

/-- C8: both lookup handlers are deterministic in their inputs — two clients
that agree on the resolver results produce identical results, so repeating
an identical valid request against fixed resolver results yields the
identical record in all four fields. -/
theorem C8_handler_deterministic (c1 c2 : IApiClient) (cep : String)
    (hcity : c1.getCityByCEP cep = c2.getCityByCEP cep)
    (htemp : ∀ city, c1.getTemperatureByCity city = c2.getTemperatureByCity city) :
    weatherHandler c1 cep = weatherHandler c2 cep ∧
    weatherHandlerUntraced c1 cep = weatherHandlerUntraced c2 cep := by
  constructor
  · unfold weatherHandler
    rw [hcity]
    cases c2.getCityByCEP cep with
    | error e => rfl
    | ok city => simp only [htemp]
  · unfold weatherHandlerUntraced
    rw [hcity]
    cases c2.getCityByCEP cep with
    | error e => rfl
    | ok city => simp only [htemp]

/-- C8 witness: two textually distinct but pointwise equal clients. -/
theorem C8_handler_deterministic_witness :
    weatherHandler ⟨fun _ => Except.ok "SP", fun _ => Except.ok (50 / 2)⟩ "01001000"
      = weatherHandler ⟨fun _ => Except.ok "SP", fun _ => Except.ok 25⟩ "01001000" ∧
    weatherHandlerUntraced ⟨fun _ => Except.ok "SP", fun _ => Except.ok (50 / 2)⟩ "01001000"
      = weatherHandlerUntraced ⟨fun _ => Except.ok "SP", fun _ => Except.ok 25⟩ "01001000" :=
  C8_handler_deterministic _ _ "01001000" rfl (fun _ => congrArg Except.ok (by norm_num))

/-- C9: a weather-provider body that is valid JSON but lacks `current.temp_c`
(the empty object) unmarshals to the zero value, so `getTemperatureByCity`
returns 0 with no error and the traced lookup service answers 200 with
`tempC = 0`, `tempF = 32`, `tempK = 273`. -/
theorem C9_missing_temp_field_yields_zero
    (httpGet : String → Except Unit HttpResponse) (key cep city : String)
    (hvalid : IsValidCEP cep = true)
    (hcity : getCityByCEP httpGet cep = Except.ok city)
    (hbody : httpGet (weatherURL key city)
      = Except.ok ⟨200, some (Json.obj [])⟩) :
    getTemperatureByCity httpGet key city = Except.ok 0 ∧
    weatherHandler (mkApiClient httpGet key) cep
      = ⟨200, some ⟨city, 0, 32, 273⟩, true, true⟩ := by
  have ht : getTemperatureByCity httpGet key city = Except.ok 0 := by
    rw [getTemperatureByCity, hbody]
    rfl
  refine ⟨ht, ?_⟩
  rw [weatherHandler]
  simp only [mkApiClient, hvalid, hcity, ht, if_true]
  norm_num

/-- C9 witness: an address provider resolving code 01001000 to locality "SP"
and a weather provider answering the empty JSON object. -/
theorem C9_missing_temp_field_yields_zero_witness :
    getTemperatureByCity
        (fun u => if u = viaCEPURL "01001000"
          then Except.ok ⟨200, some (Json.obj [("localidade", Json.str "SP")])⟩
          else Except.ok ⟨200, some (Json.obj [])⟩) "k" "SP" = Except.ok 0 ∧
    weatherHandler
        (mkApiClient
          (fun u => if u = viaCEPURL "01001000"
            then Except.ok ⟨200, some (Json.obj [("localidade", Json.str "SP")])⟩
            else Except.ok ⟨200, some (Json.obj [])⟩) "k") "01001000"
      = ⟨200, some ⟨"SP", 0, 32, 273⟩, true, true⟩ :=
  C9_missing_temp_field_yields_zero _ "k" "01001000" "SP" (by decide)
    (by rfl) (by rfl)

/-- A digit character built from a value below 10 carries that value. -/
theorem toNat_ofNat_digit (d : Nat) (h : d < 10) :
    (Char.ofNat (48 + d)).toNat = 48 + d := by
  interval_cases d <;> decide

/-- A digit character built from a value below 10 is a decimal digit. -/
theorem isDigitChar_ofNat_digit (d : Nat) (h : d < 10) :
    isDigitChar (Char.ofNat (48 + d)) = true := by
  interval_cases d <;> decide

/-- Appending one digit multiplies the parsed value by ten and adds it. -/
theorem digitsToNatAux_append (acc : Nat) (cs : List Char) (c : Char) :
    digitsToNatAux acc (cs ++ [c]) = digitsToNatAux acc cs * 10 + (c.toNat - 48) := by
  induction cs generalizing acc with
  | nil => rfl
  | cons x xs ih =>
    rw [List.cons_append]
    show digitsToNatAux (acc * 10 + (x.toNat - 48)) (xs ++ [c]) = _
    rw [ih]
    rfl

/-- Parsing the decimal digits of `n` recovers `n`. -/
theorem digitsToNatAux_natToDigits (n : Nat) :
    digitsToNatAux 0 (natToDigits n) = n := by
  induction n using natToDigits.induct with
  | case1 n h =>
    rw [natToDigits, dif_pos h]
    show 0 * 10 + ((Char.ofNat (48 + n)).toNat - 48) = n
    rw [toNat_ofNat_digit n h]
    omega
  | case2 n h ih =>
    rw [natToDigits, dif_neg h, digitsToNatAux_append, ih,
      toNat_ofNat_digit (n % 10) (Nat.mod_lt n (by omega))]
    omega

/-- The digit list of `n` consists of decimal digits only. -/
theorem natToDigits_all_digits (n : Nat) :
    (natToDigits n).all isDigitChar = true := by
  induction n using natToDigits.induct with
  | case1 n h =>
    rw [natToDigits, dif_pos h]
    simp [isDigitChar_ofNat_digit n h]
  | case2 n h ih =>
    rw [natToDigits, dif_neg h]
    simp [List.all_append, ih,
      isDigitChar_ofNat_digit (n % 10) (Nat.mod_lt n (by omega))]

/-- The digit list of `n` is nonempty. -/
theorem natToDigits_ne_nil (n : Nat) : (natToDigits n).isEmpty = false := by
  rw [natToDigits]
  split
  · rfl
  · simp

/-- A printed number parses back to itself. -/
theorem parseNat_natToDigits (n : Nat) : parseNat (natToDigits n) = some n := by
  rw [parseNat, natToDigits_ne_nil, natToDigits_all_digits,
    digitsToNatAux_natToDigits]
  rfl

/-- C7: injecting a trace context into the outbound request's headers and
extracting at the receiving side is a round trip — the context under which
the traced lookup service starts its "Validate inputs" span is exactly the
context the gateway injected before its "Call to service_b" request, so both
spans carry the same trace identifier. -/
theorem C7_trace_context_roundtrip (ctx : TraceContext) (c : HeaderCarrier) :
    extractTraceContext (injectTraceContext ctx c) = some ctx ∧
    inboundContext (outboundRequestHeaders ctx) = some ctx := by
  have key : ∀ h : HeaderCarrier,
      extractTraceContext (injectTraceContext ctx h) = some ctx := by
    intro h
    have hne : ("span-id" : String) ≠ "trace-id" := by decide
    simp only [injectTraceContext, extractTraceContext, getHeader,
      if_neg hne, if_pos rfl]
    simp [parseNat_natToDigits]
  exact ⟨key c, key []⟩
